import Mathlib

/-!
Verification development for the expense-bot RAG processor.

This file gives a shallow embedding, in Lean, of the parts of the
`backend/functions/rag_processor` package that the specification talks
about: the LanceDB-backed vector store (`storage/lancedb_store.py`),
the text chunker (`processors/text_chunker.py`), the indexing pipeline
(`core/document_indexer.py`), the search engine front end
(`core/search_engine.py`) and the HTTP health handler (`main.py`).

Python floats are modelled as exact rationals (`Rat`), Python `dict`s
keyed by strings as association lists, Python's stable `sort` as
Mathlib's stable `List.insertionSort`, and timestamps as naturals.
External collaborators (the embedding model and the LanceDB backend)
enter as explicit function parameters; the LanceDB nearest-neighbour
semantics, which lives outside this repository, is modelled from the
spec and marked as such.
-/

namespace ExpenseRag

/-! ### Python string primitives -/

/-- Python `str.strip()` on a list of characters: drop leading and trailing
whitespace. -/
def pyStripChars (l : List Char) : List Char :=
  ((l.dropWhile Char.isWhitespace).reverse.dropWhile Char.isWhitespace).reverse

/-- Python `str.strip()` on a `String`. -/
def pyStrip (s : String) : String := String.mk (pyStripChars s.data)

/-- Python `str.lower()` (ASCII case folding, which is what every string
compared here contains). -/
def pyLower (s : String) : String := String.mk (s.data.map Char.toLower)

/-- Helper for `pySplitWS`: split a character list on whitespace runs,
accumulating the current (reversed) word. -/
def splitWSAux : List Char → List Char → List String
  | [], acc => if acc.isEmpty then [] else [String.mk acc.reverse]
  | c :: r, acc =>
    if c.isWhitespace then
      if acc.isEmpty then splitWSAux r []
      else String.mk acc.reverse :: splitWSAux r []
    else splitWSAux r (c :: acc)

/-- Python `str.split()` with no argument: split on whitespace runs,
producing no empty pieces. -/
def pySplitWS (s : String) : List String := splitWSAux s.data []

/-- Whether `needle` occurs as a contiguous sublist of `hay`. -/
def listContainsSub (hay needle : List Char) : Bool :=
  (List.range (hay.length + 1)).any (fun i => needle.isPrefixOf (hay.drop i))

/-- Python `needle in hay` on strings: substring containment. -/
def containsSub (hay needle : String) : Bool :=
  listContainsSub hay.toList needle.toList

/-! ### Vector store data model (`storage/lancedb_store.py`)

One row of the `expense_documents` table, with the columns created in
`_initialize_expense_table` (the `vector` column is carried implicitly by
the backend distance oracle below). -/

structure StoreRow where
  chunk_id : String
  business_id : String
  document_id : String
  content : String
  expense_amount : Rat
  expense_category : String
  expense_merchant : String
  expense_date : String
  document_type : String
  drive_url : String
  chunk_index : Nat
  created_at : String
  metadata_json : String
deriving DecidableEq

/-- One entry of the `filters` dict accepted by
`ExpenseDocumentVectorStore.search` (lines 293-311): the keys the code
recognises, plus the metadata-JSON `LIKE` fallback.  `metadataLike k r q`
is the fallback branch, with `r` the rendered value and `q` whether the
value was a string (and hence quoted in the pattern). -/
inductive MetaFilter where
  | category (v : String)
  | merchant (v : String)
  | documentType (v : String)
  | amountFilter (op : String) (v : Rat)
  | metadataLike (k rendered : String) (quoted : Bool)
deriving DecidableEq

/-- Evaluation of the SQL comparison operator interpolated into the
`expense_amount {operator} {amount}` clause. -/
def evalAmountOp (op : String) (amount v : Rat) : Bool :=
  if op = "=" then amount = v
  else if op = "<" then amount < v
  else if op = "<=" then amount ≤ v
  else if op = ">" then v < amount
  else if op = ">=" then v ≤ amount
  else false

/-- The `LIKE` pattern built for the metadata-JSON fallback filter. -/
def jsonKeyPattern (k rendered : String) (quoted : Bool) : String :=
  if quoted then "\"" ++ k ++ "\": \"" ++ rendered ++ "\""
  else "\"" ++ k ++ "\": " ++ rendered

/-- Whether a row satisfies one filter clause of the `where` string. -/
def filterMatches (row : StoreRow) : MetaFilter → Bool
  | .category v => row.expense_category = v
  | .merchant v => containsSub row.expense_merchant v
  | .documentType v => row.document_type = v
  | .amountFilter op v => evalAmountOp op row.expense_amount v
  | .metadataLike k rendered quoted =>
      containsSub row.metadata_json (jsonKeyPattern k rendered quoted)

/-- The full `where` clause of `search`: the mandatory
`business_id = '{business_id}'` conjunct followed by the optional filter
conjuncts. -/
def whereMatches (bid : String) (filters : List MetaFilter) (row : StoreRow) : Bool :=
  row.business_id == bid && filters.all (filterMatches row)

/-- Modelled from the spec: the LanceDB backend itself is an external
dependency, not code of this repository.  Per the spec, `Search` "returns
up to `k` rows from the tenant where cosine-distance-derived similarity
`≥ threshold`, sorted by similarity descending"; the backend call
`table.search(v).where(w).limit(k)` therefore returns the rows satisfying
the predicate, sorted by the reported cosine distance ascending,
truncated to the limit.  `dist` is the `_distance` the backend attaches
to each row for the given query vector. -/
def lancedbTopK (table : List StoreRow) (dist : StoreRow → Rat)
    (bid : String) (filters : List MetaFilter) (lim : Nat) : List StoreRow :=
  (((table.filter (whereMatches bid filters)).insertionSort
      (fun a b => dist a ≤ dist b)).take lim)

/-- Similarity derivation of `search` (lancedb_store.py lines 346-347):
`similarity = max(0.0, 1.0 - (distance / 2.0))`. -/
def similarityOfDistance (d : Rat) : Rat := max 0 (1 - d / 2)

/-- A result dict appended by `search` (lines 351-360).  The parsed
`metadata` dict is carried as its JSON source text. -/
structure SearchHit where
  id : String
  document_id : String
  business_id : String
  content : String
  metadata_json : String
  similarity_score : Rat
  score : Rat
  created_at : String
deriving DecidableEq

/-- Construction of one result dict from a row and its similarity. -/
def mkHit (row : StoreRow) (sim : Rat) : SearchHit :=
  { id := row.chunk_id
    document_id := row.document_id
    business_id := row.business_id
    content := row.content
    metadata_json := row.metadata_json
    similarity_score := sim
    score := sim
    created_at := row.created_at }

/-- `ExpenseDocumentVectorStore.search` (lines 259-366): empty-query guard,
backend query under the tenant+filters `where` clause, similarity
conversion, and the `similarity >= similarity_threshold` filter. -/
def storeSearch (table : List StoreRow) (dist : StoreRow → Rat)
    (query bid : String) (lim : Nat) (filters : List MetaFilter)
    (threshold : Rat) : List SearchHit :=
  if pyStrip query = "" then []
  else
    (lancedbTopK table dist bid filters lim).filterMap (fun row =>
      let sim := similarityOfDistance (dist row)
      if threshold ≤ sim then some (mkHit row sim) else none)

/-- Keyword score of `hybrid_search` (lines 402-407): the fraction of the
lower-cased whitespace-split query terms that occur as substrings of the
lower-cased content; `0` when there are no query terms. -/
def keywordScore (query content : String) : Rat :=
  let terms := pySplitWS (pyLower query)
  let hits := (terms.filter (fun t => containsSub (pyLower content) t)).length
  if terms.length = 0 then 0 else (hits : Rat) / (terms.length : Rat)

/-- A semantic result dict after `hybrid_search` attached its
`hybrid_score` key. -/
structure HybridHit where
  base : SearchHit
  hybrid_score : Rat
deriving DecidableEq

/-- `ExpenseDocumentVectorStore.hybrid_search` (lines 372-418): semantic
search with `limit * 2` and threshold `0.5`, keyword boost
`similarity * 0.7 + keyword * 0.3`, stable descending sort on the hybrid
score, truncation to `limit`. -/
def hybrid_search (table : List StoreRow) (dist : StoreRow → Rat)
    (query bid : String) (lim : Nat) (filters : List MetaFilter) :
    List HybridHit :=
  let semantic := storeSearch table dist query bid (lim * 2) filters (1/2)
  let scored := semantic.map (fun r =>
    { base := r
      hybrid_score := r.similarity_score * (7/10) + keywordScore query r.content * (3/10) })
  (scored.insertionSort (fun a b => b.hybrid_score ≤ a.hybrid_score)).take lim

/-! ### Chunker (`processors/text_chunker.py`)

Chunk metadata and the two strategies the spec's chunk-index invariant
cites: `FixedSizeChunking` and `HierarchicalChunking`.  The MD5 content
hash used inside chunk ids is an external hash; it is passed in as the
`hash8` oracle. -/

structure ChunkMetadata where
  chunk_id : String
  document_id : String
  chunk_index : Nat
  chunk_type : String
  start_char : Nat
  end_char : Nat
  parent_chunk_id : Option String
deriving DecidableEq

structure Chunk where
  content : String
  meta : ChunkMetadata
deriving DecidableEq

/-- `ChunkingStrategy._generate_chunk_id`:
`f"{document_id}_chunk_{chunk_index}_{md5(content)[:8]}"`. -/
def generateChunkId (hash8 : String → String) (documentId : String)
    (chunkIndex : Nat) (content : String) : String :=
  documentId ++ "_chunk_" ++ toString chunkIndex ++ "_" ++ hash8 content

/-- Whether a character is one of the sentence terminators of the
character class `[.!?]`. -/
def isSentenceTerm (c : Char) : Bool := c = '.' ∨ c = '!' ∨ c = '?'

/-- State machine scanning for the non-overlapping, left-to-right matches
of the regex `[.!?]\s+`.  `i` is the index of the list head in the
scanned text, `inWs` records that the scan is inside the `\s+` of an
active match (whose end is emitted when the whitespace run ends), and
`sawTerm` that the previous character was a terminator that can still
open a match. -/
def sentenceEndScan : List Char → Nat → Bool → Bool → List Nat
  | [], i, inWs, _ => if inWs then [i] else []
  | c :: r, i, inWs, sawTerm =>
    if inWs then
      if c.isWhitespace then sentenceEndScan r (i + 1) true false
      else i :: sentenceEndScan r (i + 1) false (isSentenceTerm c)
    else
      if sawTerm ∧ c.isWhitespace then sentenceEndScan r (i + 1) true false
      else sentenceEndScan r (i + 1) false (isSentenceTerm c)

/-- End positions (`match.end()`) of the non-overlapping matches of the
regex `[.!?]\s+` in a character list, as produced by `re.finditer`
(FixedSizeChunking.chunk_document line 147). -/
def findSentenceEnds (l : List Char) : List Nat := sentenceEndScan l 0 false false

/-- Python's `min(xs, key=lambda x: abs(x - target))`: the first element
with minimal absolute distance to `target`, `none` on the empty list. -/
def pyMinByAbsDiff (target : Nat) : List Nat → Option Nat
  | [] => none
  | x :: xs => some (xs.foldl (fun best y =>
      if max y target - min y target < max best target - min best target
      then y else best) x)

/-- Python slice `l[a:b]` on a character list (clipping, `a ≤ b` not
required). -/
def pySlice (l : List Char) (a b : Nat) : List Char := (l.drop a).take (b - a)

/-- The window-end computation of one iteration of
`FixedSizeChunking.chunk_document` (lines 138-154): `end` is clipped to
the text length, and with `preserve_sentences` it snaps to the sentence
ending closest to the target position inside the search window
`[max(start + size - 100, start + size // 2), end + 100)`. -/
def fixedWindowEnd (chunkSize : Nat) (preserveSentences : Bool)
    (text : List Char) (start : Nat) : Nat :=
  let end0 := min (start + chunkSize) text.length
  if preserveSentences ∧ end0 < text.length then
    let searchStart := max (start + chunkSize - 100) (start + chunkSize / 2)
    let searchText := pySlice text searchStart (end0 + 100)
    let endings := (findSentenceEnds searchText).map (· + searchStart)
    match pyMinByAbsDiff (start + chunkSize) endings with
    | some bestEnd => min bestEnd text.length
    | none => end0
  else end0

/-- The `while start < len(text)` loop of `FixedSizeChunking.chunk_document`
(lines 136-178), run on `fuel` iterations.  Each iteration computes the
window end, emits the stripped window when non-empty (with the running
`chunk_index`), and advances `start` by `chunk_size - overlap` (at least
to `end`). -/
def fixedChunkLoop (hash8 : String → String) (documentId : String)
    (chunkSize overlap : Nat) (preserveSentences : Bool) (text : List Char) :
    Nat → Nat → Nat → List Chunk
  | 0, _, _ => []
  | fuel + 1, start, chunkIndex =>
    if start < text.length then
      let endPos := fixedWindowEnd chunkSize preserveSentences text start
      let contentChars := pyStripChars (pySlice text start endPos)
      let nextStart := max (start + chunkSize - overlap) endPos
      if contentChars.isEmpty then
        fixedChunkLoop hash8 documentId chunkSize overlap preserveSentences text
          fuel nextStart chunkIndex
      else
        let content := String.mk contentChars
        { content := content
          meta :=
            { chunk_id := generateChunkId hash8 documentId chunkIndex content
              document_id := documentId
              chunk_index := chunkIndex
              chunk_type := "fixed_size"
              start_char := start
              end_char := endPos
              parent_chunk_id := none } } ::
        fixedChunkLoop hash8 documentId chunkSize overlap preserveSentences text
          fuel nextStart (chunkIndex + 1)
    else []

/-- `FixedSizeChunking.chunk_document` (lines 124-180).  `text.length + 1`
iterations always suffice: with `overlap < chunk_size` (true of every
instantiation in the source) `start` strictly increases each iteration. -/
def fixedSizeChunkDocument (hash8 : String → String) (chunkSize overlap : Nat)
    (preserveSentences : Bool) (text documentId : String) : List Chunk :=
  if pyStrip text = "" then []
  else fixedChunkLoop hash8 documentId chunkSize overlap preserveSentences
    text.toList (text.length + 1) 0 0

/-- `HierarchicalChunking.chunk_document` (lines 415-463): fixed-size
parents (`large_chunk_size`, full overlap), re-tagged
`hierarchical_parent`; for each parent, fixed-size children
(`small_chunk_size`, half overlap) over the parent's content, re-tagged
`hierarchical_child` with the parent's id, and a fresh `chunk_id` built
from `len(all_chunks)` — note the child's `chunk_index` is left as the
child chunker produced it. -/
def hierarchicalChunkDocument (hash8 : String → String)
    (largeChunkSize smallChunkSize overlap : Nat) (text documentId : String) :
    List Chunk :=
  if pyStrip text = "" then []
  else
    let parents := fixedSizeChunkDocument hash8 largeChunkSize overlap true text documentId
    parents.foldl (fun allChunks parent =>
      let parentChunk : Chunk :=
        { parent with meta := { parent.meta with chunk_type := "hierarchical_parent" } }
      let acc := allChunks ++ [parentChunk]
      let children := fixedSizeChunkDocument hash8 smallChunkSize (overlap / 2) true
        parent.content documentId
      children.foldl (fun acc child =>
        acc ++ [{ child with
          meta := { child.meta with
            chunk_type := "hierarchical_child"
            parent_chunk_id := some parentChunk.meta.chunk_id
            chunk_id := generateChunkId hash8 documentId acc.length child.content } }]) acc)
      []

/-! ### Indexer (`core/document_indexer.py`)

Jobs, the indexer's in-memory maps, `add_document`, `process_job`,
`process_next_job` and `retry_failed_jobs`.  Python dicts keyed by job id
are association lists; timestamps are naturals supplied by the caller
(`now0` for `started_at`, `now1` for `completed_at`).  The performance
`metrics` dict, which no claim mentions, is elided from the state. -/

structure Job where
  job_id : String
  file_path : String
  business_id : String
  document_id : String
  document_hash : Option String
  priority : Nat
  status : String
  created_at : Nat
  started_at : Option Nat
  completed_at : Option Nat
  error_message : Option String
  chunks_created : Nat
  processing_time : Option Nat
deriving DecidableEq

/-- A value of the search engine's `document_cache`
(`cache_document_result`, search_engine.py lines 592-599). -/
structure CacheEntry where
  job_id : String
  document_id : String
  chunks_created : Nat
  cached_at : Nat
deriving DecidableEq

/-- A document dict handed to `ExpenseDocumentVectorStore.add_documents`
by `process_job` (the embedding vector is attached by the store and not
observable in any claim). -/
structure VectorDoc where
  id : String
  business_id : String
  document_id : String
  content : String
deriving DecidableEq

/-- Dict insertion `m[k] = v` for an association list. -/
def mapInsert (k : String) {β : Type} (v : β) (m : List (String × β)) :
    List (String × β) :=
  (k, v) :: m.filter (fun p => p.1 != k)

/-- Dict deletion `m.pop(k, None)` for an association list. -/
def mapErase (k : String) {β : Type} (m : List (String × β)) :
    List (String × β) :=
  m.filter (fun p => p.1 != k)

/-- The mutable state shared by `ExpenseDocumentIndexer` and the
`ExpenseDocumentSearchEngine` that wires itself to it: queue, job maps,
the engine's document cache, the vector store table, and the two
attributes relevant to the cache hook — `_search_engine_ref`, which
`ExpenseDocumentSearchEngine.__init__` (line 369) sets, and
`_rag_service_ref`, which `process_job` (line 327) tests with `hasattr`
and which nothing in the repository ever sets. -/
structure IndexerState where
  job_queue : List Job
  active_jobs : List (String × Job)
  completed_jobs : List (String × Job)
  failed_jobs : List (String × Job)
  ragServiceRefSet : Bool
  searchEngineRefSet : Bool
  document_cache : List (String × CacheEntry)
  store_table : List VectorDoc
deriving DecidableEq

/-- A fresh indexer: empty queue, maps, cache and table, no engine
reference (`ExpenseDocumentIndexer.__init__`). -/
def initialIndexerState : IndexerState :=
  { job_queue := []
    active_jobs := []
    completed_jobs := []
    failed_jobs := []
    ragServiceRefSet := false
    searchEngineRefSet := false
    document_cache := []
    store_table := [] }

/-- `ExpenseDocumentSearchEngine.__init__` line 369:
`self.document_indexer._search_engine_ref = self`.  Note the attribute it
sets is `_search_engine_ref`, not the `_rag_service_ref` that
`process_job` consults. -/
def engineInitWire (s : IndexerState) : IndexerState :=
  { s with searchEngineRefSet := true }

/-- `ExpenseDocumentIndexer.add_document` (lines 159-217): validate that
the file exists and its type is supported (both externally observed
facts, passed as booleans), then append the job and re-sort the queue by
priority (Python's stable sort). -/
def add_document (fileExists typeSupported : Bool) (job : Job)
    (s : IndexerState) : Except String IndexerState :=
  if ¬fileExists then .error ("Document not found: " ++ job.file_path)
  else if ¬typeSupported then .error ("Unsupported document type: " ++ job.file_path)
  else .ok { s with
    job_queue := (s.job_queue ++ [job]).insertionSort
      (fun a b => a.priority ≤ b.priority) }

/-- `ExpenseDocumentVectorStore.add_documents` (lines 172-257) as it acts
on the table: rows with whitespace-only content are skipped with a
warning, the rest are appended; the accepted ids are returned. -/
def add_documents (docs : List VectorDoc) (table : List VectorDoc) :
    List VectorDoc × List String :=
  let accepted := docs.filter (fun d => pyStrip d.content ≠ "")
  (table ++ accepted, accepted.map (fun d => d.id))

/-- The result dict `process_job` returns. -/
structure JobResult where
  job_id : String
  status : String
  chunks_created : Nat
  error : Option String
deriving DecidableEq

/-- `ExpenseDocumentIndexer.process_job` (lines 232-357).  The document
parser's outcome arrives as `parse` (extracted text, or the exception it
raised); the chunking orchestrator is the function `chunker` applied to
the text and document id; `upsert` is the outcome of the vector store's
`table.add`.  On success the job moves to `completed_jobs` with its
chunk count and timing, the accepted rows are added to the table, and the
cache hook fires only under `hasattr(self, '_rag_service_ref')`; on any
exception the job moves to `failed_jobs` with the error message. -/
def process_job (now0 now1 : Nat) (parse : Except String String)
    (chunker : String → String → List Chunk) (upsert : Except String Unit)
    (s : IndexerState) (job : Job) : IndexerState × JobResult :=
  let job0 := { job with status := "processing", started_at := some now0 }
  let sActive := { s with active_jobs := mapInsert job.job_id job0 s.active_jobs }
  let fail := fun (msg : String) =>
    let jf := { job0 with
      status := "failed"
      error_message := some msg
      completed_at := some now1
      processing_time := some (now1 - now0) }
    ({ sActive with
        active_jobs := mapErase job.job_id sActive.active_jobs
        failed_jobs := mapInsert job.job_id jf sActive.failed_jobs },
      { job_id := job.job_id, status := "failed", chunks_created := 0,
        error := some msg })
  match parse with
  | .error e => fail e
  | .ok text =>
    if pyStrip text = "" then fail "No text content extracted from document"
    else
      let chunks := chunker text job.document_id
      if chunks.isEmpty then fail "No chunks created from document"
      else
        match upsert with
        | .error e => fail e
        | .ok _ =>
          let vectorDocs := chunks.map (fun c =>
            { id := c.meta.chunk_id
              business_id := job.business_id
              document_id := job.document_id
              content := c.content : VectorDoc })
          let table1 := (add_documents vectorDocs s.store_table).1
          let jc := { job0 with
            status := "completed"
            completed_at := some now1
            chunks_created := chunks.length
            processing_time := some (now1 - now0) }
          let cache1 :=
            if sActive.ragServiceRefSet then
              match job.document_hash with
              | some h =>
                mapInsert (job.business_id ++ ":" ++ h)
                  { job_id := job.job_id
                    document_id := job.document_id
                    chunks_created := chunks.length
                    cached_at := now1 : CacheEntry }
                  sActive.document_cache
              | none => sActive.document_cache
            else sActive.document_cache
          ({ sActive with
              active_jobs := mapErase job.job_id sActive.active_jobs
              completed_jobs := mapInsert job.job_id jc sActive.completed_jobs
              store_table := table1
              document_cache := cache1 },
            { job_id := job.job_id, status := "completed",
              chunks_created := chunks.length, error := none })

/-- `ExpenseDocumentIndexer.process_next_job` (lines 219-230): pop the
queue head and process it. -/
def process_next_job (now0 now1 : Nat) (parse : Except String String)
    (chunker : String → String → List Chunk) (upsert : Except String Unit)
    (s : IndexerState) : IndexerState × Option JobResult :=
  match s.job_queue with
  | [] => (s, none)
  | j :: rest =>
    let (s1, r) := process_job now0 now1 parse chunker upsert
      { s with job_queue := rest } j
    (s1, some r)

/-- The reset `retry_failed_jobs` applies to a failed job (lines
484-488). -/
def resetFailedJob (j : Job) : Job :=
  { j with
    status := "pending"
    started_at := none
    completed_at := none
    error_message := none }

/-- `ExpenseDocumentIndexer.retry_failed_jobs` (lines 478-502): every
failed job is reset to pending and appended to the queue, the failed map
is emptied, and the queue is re-sorted by priority; the retried job ids
are returned.  No retry counter exists and `max_retries` is never
consulted. -/
def retry_failed_jobs (s : IndexerState) : List String × IndexerState :=
  let retried := s.failed_jobs.map (fun p => p.1)
  let queue1 := s.job_queue ++ s.failed_jobs.map (fun p => resetFailedJob p.2)
  (retried,
    { s with
      job_queue := queue1.insertionSort (fun a b => a.priority ≤ b.priority)
      failed_jobs := [] })

/-- The flow of `handle_index_document` (main.py lines 227-237): submit
via `add_document`, then `process_next_job` immediately.  Note that no
step consults the search engine's document cache. -/
def handleIndexFlow (fileExists typeSupported : Bool) (now0 now1 : Nat)
    (parse : Except String String) (chunker : String → String → List Chunk)
    (upsert : Except String Unit) (job : Job) (s : IndexerState) :
    IndexerState :=
  match add_document fileExists typeSupported job s with
  | .error _ => s
  | .ok s1 => (process_next_job now0 now1 parse chunker upsert s1).1

/-- `ExpenseDocumentSearchEngine.check_document_cache` (lines 547-578):
look up `(business_id, document_hash)` and honour the TTL, evicting an
expired entry.  Present in the source but never called by any submission
path. -/
def check_document_cache (now cacheTtl : Nat) (documentHash businessId : String)
    (cache : List (String × CacheEntry)) :
    Option CacheEntry × List (String × CacheEntry) :=
  let key := businessId ++ ":" ++ documentHash
  match cache.lookup key with
  | some entry =>
    if now - entry.cached_at < cacheTtl then (some entry, cache)
    else (none, mapErase key cache)
  | none => (none, cache)

/-! ### Search engine front end (`core/search_engine.py`)

`ExpenseDocumentSearchEngine.search` (lines 389-515).  The query
enhancer, result post-processor and vector store are the engine's
sub-components; they enter as function parameters, applied exactly where
the source applies them. -/

structure EngineResult where
  content : String
  document_id : String
  chunk_id : String
  score : Rat
  retrieval_method : String
  business_id : String
deriving DecidableEq

/-- The `search_metadata` dict of a `SearchResponse`, reduced to the
fields the claims observe: the error note, and the normal-path fields. -/
structure SearchMeta where
  error : Option String
  original_query : Option String
  enhanced_query : Option String
  total_raw_results : Nat
deriving DecidableEq

structure SearchResponse where
  query : String
  results : List EngineResult
  total_results : Nat
  processing_time : Rat
  search_metadata : SearchMeta
deriving DecidableEq

/-- The `SearchResponse` built by the empty-query guard (lines 416-423). -/
def emptyQueryResponse (query : String) : SearchResponse :=
  { query := query
    results := []
    total_results := 0
    processing_time := 0
    search_metadata :=
      { error := some "Empty query", original_query := none,
        enhanced_query := none, total_raw_results := 0 } }

/-- `ExpenseDocumentSearchEngine.search`: empty-query guard, limit cap at
`max_limit = 50`, optional query enhancement and filter extraction,
vector search with `limit * 2` and the configured threshold `0.3`,
post-processing and deduplication, truncation to `limit`.  `procTime` is
the wall-clock processing time, not modelled by any claim. -/
def engineSearch
    (store : String → String → Nat → List MetaFilter → Rat → List SearchHit)
    (enhance : String → String)
    (extractFilters : String → String × List MetaFilter)
    (post : List SearchHit → String → Nat → List EngineResult)
    (dedup : List EngineResult → List EngineResult)
    (procTime : Rat)
    (query bid : String) (lim : Nat) (filters : List MetaFilter)
    (enhanceQuery : Bool) : SearchResponse :=
  if pyStrip query = "" then emptyQueryResponse query
  else
    let lim := min lim 50
    let enhancedAndFilters :=
      if enhanceQuery then
        let enhanced := enhance query
        let cleanedAndExtra := extractFilters enhanced
        (cleanedAndExtra.1, filters ++ cleanedAndExtra.2)
      else (query, filters)
    let raw := store enhancedAndFilters.1 bid (lim * 2) enhancedAndFilters.2 (3/10)
    let processed := dedup (post raw query (lim * 2))
    let finalResults := processed.take lim
    { query := query
      results := finalResults
      total_results := finalResults.length
      processing_time := procTime
      search_metadata :=
        { error := none
          original_query := some query
          enhanced_query := some enhancedAndFilters.1
          total_raw_results := raw.length } }

/-! ### Health handler (`main.py` and the component health checks) -/

/-- `ExpenseDocumentIndexer.health_check` (document_indexer.py lines
534-572): collect an issue string per unhealthy sub-component; the
aggregate is `warning` unless some issue string contains `unhealthy`. -/
def indexerHealthStatus (docProcessorH vectorStoreH chunkingH : String) : String :=
  let issues :=
    (if docProcessorH ≠ "healthy" then ["Document processor: " ++ docProcessorH] else []) ++
    (if vectorStoreH ≠ "healthy" then ["Vector store: " ++ vectorStoreH] else []) ++
    (if chunkingH ≠ "healthy" then ["Chunking orchestrator: " ++ chunkingH] else [])
  if issues.isEmpty then "healthy"
  else if issues.all (fun i => ¬ containsSub i "unhealthy") then "warning"
  else "unhealthy"

/-- `ExpenseDocumentSearchEngine.health_check` (search_engine.py lines
695-743): `warning` when the vector store or indexer is not healthy,
`unhealthy` when the embedded search test throws. -/
def engineHealthStatus (vectorStoreH indexerH : String) (searchTestOk : Bool) :
    String :=
  let s1 := if vectorStoreH ≠ "healthy" then "warning" else "healthy"
  let s2 := if indexerH ≠ "healthy" then "warning" else s1
  if searchTestOk then s2 else "unhealthy"

/-- The wire response of `handle_health_check`. -/
structure HealthResponse where
  status : String
  engine_status : String
  indexer_status : String
  http_code : Nat
deriving DecidableEq

/-- `handle_health_check` (main.py lines 114-145): aggregate the two
component healths into `healthy`/`unhealthy` and return the body — always
with HTTP status 200 on the non-exception path. -/
def handle_health_check (engineH indexerH : String) : HealthResponse :=
  let overall := if engineH ≠ "healthy" ∨ indexerH ≠ "healthy"
    then "unhealthy" else "healthy"
  { status := overall
    engine_status := engineH
    indexer_status := indexerH
    http_code := 200 }

/-! ### Facts about the vector-store search -/

theorem mem_lancedbTopK {table : List StoreRow} {dist : StoreRow → Rat}
    {bid : String} {filters : List MetaFilter} {lim : Nat} {r : StoreRow}
    (h : r ∈ lancedbTopK table dist bid filters lim) :
    r ∈ table ∧ whereMatches bid filters r = true := by
  have h1 := List.mem_of_mem_take h
  rw [List.mem_insertionSort] at h1
  exact ⟨(List.mem_filter.mp h1).1, (List.mem_filter.mp h1).2⟩

theorem pairwise_lancedbTopK (table : List StoreRow) (dist : StoreRow → Rat)
    (bid : String) (filters : List MetaFilter) (lim : Nat) :
    (lancedbTopK table dist bid filters lim).Pairwise
      (fun a b => dist a ≤ dist b) := by
  haveI : IsTotal StoreRow (fun a b => dist a ≤ dist b) :=
    ⟨fun a b => le_total (dist a) (dist b)⟩
  haveI : IsTrans StoreRow (fun a b => dist a ≤ dist b) :=
    ⟨fun _ _ _ hab hbc => le_trans hab hbc⟩
  exact List.Pairwise.sublist (List.take_sublist _ _)
    (List.sorted_insertionSort _ _)

theorem similarity_anti {d₁ d₂ : Rat} (h : d₁ ≤ d₂) :
    similarityOfDistance d₂ ≤ similarityOfDistance d₁ := by
  unfold similarityOfDistance
  exact max_le_max le_rfl (by linarith)

theorem similarity_nonneg (d : Rat) : 0 ≤ similarityOfDistance d :=
  le_max_left _ _

theorem similarity_le_one {d : Rat} (h : 0 ≤ d) : similarityOfDistance d ≤ 1 :=
  max_le (by norm_num) (by linarith)

theorem mem_storeSearch {table : List StoreRow} {dist : StoreRow → Rat}
    {query bid : String} {lim : Nat} {filters : List MetaFilter}
    {threshold : Rat} {x : SearchHit}
    (h : x ∈ storeSearch table dist query bid lim filters threshold) :
    ∃ row, row ∈ table ∧ whereMatches bid filters row = true ∧
      threshold ≤ similarityOfDistance (dist row) ∧
      x = mkHit row (similarityOfDistance (dist row)) := by
  unfold storeSearch at h
  split at h
  · exact absurd h (List.not_mem_nil x)
  · obtain ⟨row, hrow, heq⟩ := List.mem_filterMap.mp h
    simp only at heq
    split at heq
    · rename_i hle
      obtain ⟨hmem, hwhere⟩ := mem_lancedbTopK hrow
      exact ⟨row, hmem, hwhere, hle, (Option.some.injEq _ _).mp heq |>.symm⟩
    · exact absurd heq (by simp)

theorem pairwise_storeSearch (table : List StoreRow) (dist : StoreRow → Rat)
    (query bid : String) (lim : Nat) (filters : List MetaFilter)
    (threshold : Rat) :
    (storeSearch table dist query bid lim filters threshold).Pairwise
      (fun a b => b.score ≤ a.score) := by
  unfold storeSearch
  split
  · exact List.Pairwise.nil
  · refine List.Pairwise.filterMap _ ?_ (pairwise_lancedbTopK table dist bid filters lim)
    intro a b hab c hc d hd
    simp only at hc hd
    split at hc
    · split at hd
      · have hc' := (Option.some.injEq _ _).mp hc
        have hd' := (Option.some.injEq _ _).mp hd
        subst hc'; subst hd'
        exact similarity_anti hab
      · exact absurd hd (by simp)
    · exact absurd hc (by simp)

/-- C2: for every search invocation with tenant `X` and similarity
threshold `T`, every returned row `r` satisfies `r.score ≥ T` and
`r.business_id = X` (results are tenant-scoped and threshold-filtered),
and the results are sorted by similarity descending. -/
theorem search_results_scoped_filtered_sorted
    (table : List StoreRow) (dist : StoreRow → Rat) (query bid : String)
    (lim : Nat) (filters : List MetaFilter) (threshold : Rat) :
    (∀ r ∈ storeSearch table dist query bid lim filters threshold,
      threshold ≤ r.score ∧ r.business_id = bid) ∧
    (storeSearch table dist query bid lim filters threshold).Pairwise
      (fun a b => b.score ≤ a.score) := by
  refine ⟨fun r hr => ?_, pairwise_storeSearch table dist query bid lim filters threshold⟩
  obtain ⟨row, _, hwhere, hle, hx⟩ := mem_storeSearch hr
  subst hx
  refine ⟨hle, ?_⟩
  have hb : (row.business_id == bid) = true := by
    unfold whereMatches at hwhere
    exact ((Bool.and_eq_true _ _).mp hwhere).1
  exact eq_of_beq hb

/-- Witness for C2 at a concrete table, query and tenant. -/
theorem search_results_scoped_filtered_sorted_witness :
    (0:Rat) ≤ (mkHit
      { chunk_id := "c1", business_id := "b1", document_id := "d1",
        content := "grande latte receipt", expense_amount := 0,
        expense_category := "", expense_merchant := "", expense_date := "",
        document_type := "expense", drive_url := "", chunk_index := 0,
        created_at := "t0", metadata_json := "" } 1).score ∧
    (mkHit
      { chunk_id := "c1", business_id := "b1", document_id := "d1",
        content := "grande latte receipt", expense_amount := 0,
        expense_category := "", expense_merchant := "", expense_date := "",
        document_type := "expense", drive_url := "", chunk_index := 0,
        created_at := "t0", metadata_json := "" } 1).business_id = "b1" :=
  (search_results_scoped_filtered_sorted
    [{ chunk_id := "c1", business_id := "b1", document_id := "d1",
        content := "grande latte receipt", expense_amount := 0,
        expense_category := "", expense_merchant := "", expense_date := "",
        document_type := "expense", drive_url := "", chunk_index := 0,
        created_at := "t0", metadata_json := "" }]
    (fun _ => 0) "latte" "b1" 10 [] 0).1 _
    (by simp [storeSearch, lancedbTopK, whereMatches, filterMatches, pyStrip,
      pyStripChars, similarityOfDistance, mkHit, List.insertionSort,
      List.orderedInsert, List.filterMap])

/-- A persisted row whose tenant column is the empty string, as
`add_documents` will happily store for a caller that passes
`business_id = ""`. -/
def emptyTenantRow : StoreRow :=
  { chunk_id := "c0", business_id := "", document_id := "d0",
    content := "latte receipt", expense_amount := 0,
    expense_category := "", expense_merchant := "", expense_date := "",
    document_type := "expense", drive_url := "", chunk_index := 0,
    created_at := "t0", metadata_json := "" }

/-- Counterexample to C3: a search call with an empty tenant identifier is
not rejected with an error — `search` builds the clause
`business_id = ''`, runs the scan, and returns the rows of the empty
tenant as ordinary results. -/
theorem search_empty_tenant_not_rejected :
    storeSearch [emptyTenantRow] (fun _ => 0) "latte" "" 10 [] 0 =
      [mkHit emptyTenantRow 1] ∧
    storeSearch [emptyTenantRow] (fun _ => 0) "latte" "" 10 [] 0 ≠ [] := by
  have h : storeSearch [emptyTenantRow] (fun _ => 0) "latte" "" 10 [] 0 =
      [mkHit emptyTenantRow 1] := by
    simp [storeSearch, lancedbTopK, whereMatches, filterMatches, pyStrip,
      pyStripChars, similarityOfDistance, mkHit, emptyTenantRow,
      List.insertionSort, List.orderedInsert, List.filterMap]
  exact ⟨h, by rw [h]; simp⟩

/-- C3 (amended): the vector store never broadens the scan — the tenant
predicate `business_id = X` is applied to every search for whatever `X`
the caller passes, the empty string included; an empty tenant id is not
rejected with an error, it simply scopes the scan to the empty tenant. -/
theorem search_always_tenant_scoped
    (table : List StoreRow) (dist : StoreRow → Rat) (query bid : String)
    (lim : Nat) (filters : List MetaFilter) (threshold : Rat) :
    ∀ r ∈ storeSearch table dist query bid lim filters threshold,
      r.business_id = bid := by
  intro r hr
  obtain ⟨row, _, hwhere, _, hx⟩ := mem_storeSearch hr
  subst hx
  exact eq_of_beq ((Bool.and_eq_true _ _).mp hwhere).1

/-- Witness for the amended C3, at the empty tenant itself. -/
theorem search_always_tenant_scoped_witness :
    (mkHit emptyTenantRow 1).business_id = "" :=
  search_always_tenant_scoped [emptyTenantRow] (fun _ => 0) "latte" "" 10 [] 0
    (mkHit emptyTenantRow 1)
    (by simp [storeSearch, lancedbTopK, whereMatches, filterMatches, pyStrip,
      pyStripChars, similarityOfDistance, mkHit, emptyTenantRow,
      List.insertionSort, List.orderedInsert, List.filterMap])

/-- C4: every search result's score equals `max(0, 1 − distance/2)` for
the cosine distance the backend reported for its row; with distances
nonnegative (cosine distance lives in `[0, 2]`) the score lies in
`[0, 1]`, and the `similarity_score` field agrees with `score`. -/
theorem search_score_is_similarity_of_distance
    (table : List StoreRow) (dist : StoreRow → Rat) (query bid : String)
    (lim : Nat) (filters : List MetaFilter) (threshold : Rat)
    (hd : ∀ row, 0 ≤ dist row) :
    ∀ r ∈ storeSearch table dist query bid lim filters threshold,
      (∃ row ∈ table, r.score = similarityOfDistance (dist row)) ∧
      0 ≤ r.score ∧ r.score ≤ 1 ∧ r.similarity_score = r.score := by
  intro r hr
  obtain ⟨row, hmem, _, _, hx⟩ := mem_storeSearch hr
  subst hx
  exact ⟨⟨row, hmem, rfl⟩, similarity_nonneg _, similarity_le_one (hd row), rfl⟩

/-- A row for the score witness below. -/
def distOneRow : StoreRow :=
  { chunk_id := "c4", business_id := "b4", document_id := "d4",
    content := "uber ride", expense_amount := 0,
    expense_category := "", expense_merchant := "", expense_date := "",
    document_type := "expense", drive_url := "", chunk_index := 0,
    created_at := "t4", metadata_json := "" }

/-- Witness for C4: a table whose single row the backend puts at cosine
distance 1. -/
theorem search_score_is_similarity_of_distance_witness :
    (∀ row : StoreRow, (0:Rat) ≤ (fun _ => (1:Rat)) row) ∧
    ((∃ row ∈ [distOneRow],
        (mkHit distOneRow (similarityOfDistance 1)).score =
          similarityOfDistance ((fun _ => (1:Rat)) row)) ∧
      0 ≤ (mkHit distOneRow (similarityOfDistance 1)).score ∧
      (mkHit distOneRow (similarityOfDistance 1)).score ≤ 1 ∧
      (mkHit distOneRow (similarityOfDistance 1)).similarity_score =
        (mkHit distOneRow (similarityOfDistance 1)).score) :=
  ⟨fun _ => zero_le_one,
    search_score_is_similarity_of_distance [distOneRow] (fun _ => 1)
      "ride" "b4" 10 [] 0 (fun _ => zero_le_one)
      (mkHit distOneRow (similarityOfDistance 1))
      (by simp [storeSearch, lancedbTopK, whereMatches, filterMatches, pyStrip,
        pyStripChars, similarityOfDistance, mkHit, distOneRow,
        List.insertionSort, List.orderedInsert, List.filterMap])⟩

/-- C7: `hybrid_search` with limit `k` runs the plain search with limit
`2·k` and similarity threshold `0.5`, attaches to each result the hybrid
score `0.7·similarity + 0.3·keyword_score` where `keyword_score` is the
fraction of the query terms occurring in the content, sorts descending by
the hybrid score and returns at most the top `k`. -/
theorem hybrid_search_reranks_semantic_results
    (table : List StoreRow) (dist : StoreRow → Rat) (query bid : String)
    (lim : Nat) (filters : List MetaFilter) :
    (hybrid_search table dist query bid lim filters).length ≤ lim ∧
    (hybrid_search table dist query bid lim filters).Pairwise
      (fun a b => b.hybrid_score ≤ a.hybrid_score) ∧
    ∀ r ∈ hybrid_search table dist query bid lim filters,
      r.base ∈ storeSearch table dist query bid (lim * 2) filters (1/2) ∧
      (1:Rat)/2 ≤ r.base.score ∧
      r.hybrid_score = r.base.similarity_score * (7/10) +
        keywordScore query r.base.content * (3/10) := by
  unfold hybrid_search
  refine ⟨?_, ?_, ?_⟩
  · rw [List.length_take]
    exact min_le_left _ _
  · haveI : IsTotal HybridHit (fun a b => b.hybrid_score ≤ a.hybrid_score) :=
      ⟨fun a b => (le_total b.hybrid_score a.hybrid_score).elim Or.inl Or.inr⟩
    haveI : IsTrans HybridHit (fun a b => b.hybrid_score ≤ a.hybrid_score) :=
      ⟨fun _ _ _ hab hbc => le_trans hbc hab⟩
    exact List.Pairwise.sublist (List.take_sublist _ _)
      (List.sorted_insertionSort _ _)
  · intro r hr
    have h1 := List.mem_of_mem_take hr
    rw [List.mem_insertionSort] at h1
    obtain ⟨base, hbase, hrb⟩ := List.mem_map.mp h1
    subst hrb
    obtain ⟨row, _, _, hle, hx⟩ := mem_storeSearch hbase
    refine ⟨hbase, ?_, rfl⟩
    rw [hx]
    exact hle

/-- A row for the hybrid-search witness below. -/
def hybridRow : StoreRow :=
  { chunk_id := "c7", business_id := "b7", document_id := "d7",
    content := "grande latte", expense_amount := 0,
    expense_category := "", expense_merchant := "", expense_date := "",
    document_type := "expense", drive_url := "", chunk_index := 0,
    created_at := "t7", metadata_json := "" }

/-- The lone hybrid result of the witness scenario. -/
def hybridRowHit : HybridHit :=
  { base := mkHit hybridRow (similarityOfDistance 0)
    hybrid_score := (mkHit hybridRow (similarityOfDistance 0)).similarity_score * (7/10) +
      keywordScore "latte" (mkHit hybridRow (similarityOfDistance 0)).content * (3/10) }

/-- Witness for C7 at a one-row table whose row the backend puts at
distance 0. -/
theorem hybrid_search_reranks_semantic_results_witness :
    hybridRowHit.base ∈
      storeSearch [hybridRow] (fun _ => 0) "latte" "b7" (10 * 2) [] (1/2) ∧
    (1:Rat)/2 ≤ hybridRowHit.base.score ∧
    hybridRowHit.hybrid_score = hybridRowHit.base.similarity_score * (7/10) +
      keywordScore "latte" hybridRowHit.base.content * (3/10) :=
  (hybrid_search_reranks_semantic_results [hybridRow] (fun _ => 0) "latte"
    "b7" 10 []).2.2 hybridRowHit
    (by simp [hybrid_search, hybridRowHit, storeSearch, lancedbTopK,
      whereMatches, filterMatches, pyStrip, pyStripChars,
      similarityOfDistance, mkHit, hybridRow, List.insertionSort,
      List.orderedInsert, List.filterMap, one_half_lt_one.le,
      (by norm_num : ((2:Rat))⁻¹ ≤ 1)])

/-! ### Facts about the chunkers -/

theorem fixedChunkLoop_indexes (hash8 : String → String) (documentId : String)
    (chunkSize overlap : Nat) (preserveSentences : Bool) (text : List Char) :
    ∀ fuel start idx,
      (fixedChunkLoop hash8 documentId chunkSize overlap preserveSentences
          text fuel start idx).map (fun c => c.meta.chunk_index) =
        List.range' idx (fixedChunkLoop hash8 documentId chunkSize overlap
          preserveSentences text fuel start idx).length := by
  intro fuel
  induction fuel with
  | zero => intro start idx; simp [fixedChunkLoop]
  | succ n ih =>
    intro start idx
    rw [fixedChunkLoop]
    split
    · dsimp only
      split
      · exact ih _ _
      · simp only [List.map_cons, List.length_cons, List.range'_succ]
        rw [ih]
    · simp

/-- Counterexample to C6: for the hierarchical strategy the claim fails —
chunking the document `"aaaa"` with the `contract` configuration
(parent 1500 / child 400 / overlap 100) produces a parent and a child
that both carry `chunk_index = 0`, so the indexes of the document are
`[0, 0]`: duplicated, not dense. -/
theorem hierarchical_chunk_indexes_duplicated :
    (hierarchicalChunkDocument (fun _ => "h8") 1500 400 100 "aaaa" "d").map
        (fun c => c.meta.chunk_index) = [0, 0] ∧
    ¬ (hierarchicalChunkDocument (fun _ => "h8") 1500 400 100 "aaaa" "d").map
        (fun c => c.meta.chunk_index) =
      List.range
        (hierarchicalChunkDocument (fun _ => "h8") 1500 400 100 "aaaa" "d").length := by
  decide

/-- C6 (amended): strategies that number emitted fragments with the
running counter — fixed-size chunking in particular — produce
`chunk_index` values that are dense and start at 0; hierarchical
chunking, however, keeps each child chunker's local numbering, so within
one document the parent and its first child both carry index 0 and the
indexes are not dense. -/
theorem fixed_size_chunk_indexes_dense (hash8 : String → String)
    (chunkSize overlap : Nat) (preserveSentences : Bool)
    (text documentId : String) :
    (fixedSizeChunkDocument hash8 chunkSize overlap preserveSentences text
        documentId).map (fun c => c.meta.chunk_index) =
      List.range (fixedSizeChunkDocument hash8 chunkSize overlap
        preserveSentences text documentId).length := by
  unfold fixedSizeChunkDocument
  split
  · simp
  · rw [List.range_eq_range']
    exact fixedChunkLoop_indexes hash8 documentId chunkSize overlap
      preserveSentences text.toList _ 0 0

/-! ### Facts about retry and job settlement -/

/-- A job that has failed with a transient-looking error. -/
def failedJobJ1 : Job :=
  { job_id := "j1", file_path := "/tmp/r.pdf", business_id := "t1",
    document_id := "docj1", document_hash := none, priority := 1,
    status := "failed", created_at := 0, started_at := some 0,
    completed_at := some 1, error_message := some "parser exception",
    chunks_created := 0, processing_time := some 1 }

/-- An indexer whose only job has failed once. -/
def retryState0 : IndexerState :=
  { initialIndexerState with failed_jobs := [("j1", failedJobJ1)] }

/-- One full retry cycle in which the dependency keeps failing:
`retry_failed_jobs` re-queues the failed jobs, then `process_next_job`
runs the head job and the parser raises again. -/
def retryThenFail (s : IndexerState) : IndexerState :=
  (process_next_job 0 1 (.error "parser exception") (fun _ _ => [])
    (.ok ()) (retry_failed_jobs s).2).1

/-- Counterexample to C5: with the default `max_retries = 3`, a job that
has already failed and been retried four times is still re-queued by the
next `retry_failed_jobs` call instead of remaining failed — no retry
counter exists and `max_retries` is never consulted, so retries are
unbounded. -/
theorem retry_failed_jobs_unbounded :
    (retry_failed_jobs (retryThenFail^[4] retryState0)).1 = ["j1"] ∧
    ((retry_failed_jobs (retryThenFail^[4] retryState0)).2.job_queue.map
      (fun j => (j.job_id, j.status))) = [("j1", "pending")] ∧
    (retry_failed_jobs (retryThenFail^[4] retryState0)).2.failed_jobs = [] := by
  decide

/-- C5 (amended): `retry_failed_jobs` moves every failed job back to
status pending and re-queues it, and the queue is re-sorted in priority
order; but the number of retries of a job is unbounded — `max_retries` is
configured and never enforced, so a repeatedly failing job never remains
failed. -/
theorem retry_failed_jobs_requeues_pending_in_priority_order
    (s : IndexerState) :
    (retry_failed_jobs s).2.failed_jobs = [] ∧
    (retry_failed_jobs s).1 = s.failed_jobs.map (fun p => p.1) ∧
    (∀ p ∈ s.failed_jobs,
      resetFailedJob p.2 ∈ (retry_failed_jobs s).2.job_queue ∧
      (resetFailedJob p.2).status = "pending") ∧
    (retry_failed_jobs s).2.job_queue.Pairwise
      (fun a b => a.priority ≤ b.priority) := by
  refine ⟨rfl, rfl, fun p hp => ⟨?_, rfl⟩, ?_⟩
  · show resetFailedJob p.2 ∈ List.insertionSort _ _
    rw [List.mem_insertionSort, List.mem_append]
    exact Or.inr (List.mem_map.mpr ⟨p, hp, rfl⟩)
  · haveI : IsTotal Job (fun a b => a.priority ≤ b.priority) :=
      ⟨fun a b => le_total a.priority b.priority⟩
    haveI : IsTrans Job (fun a b => a.priority ≤ b.priority) :=
      ⟨fun _ _ _ hab hbc => le_trans hab hbc⟩
    exact List.sorted_insertionSort _ _

/-- Witness for the amended C5 at a one-failed-job indexer. -/
theorem retry_failed_jobs_requeues_pending_in_priority_order_witness :
    ("j1", failedJobJ1) ∈ retryState0.failed_jobs ∧
    (resetFailedJob failedJobJ1 ∈ (retry_failed_jobs retryState0).2.job_queue ∧
      (resetFailedJob failedJobJ1).status = "pending") :=
  ⟨by decide,
    (retry_failed_jobs_requeues_pending_in_priority_order retryState0).2.2.1
      ("j1", failedJobJ1) (by decide)⟩

theorem lookup_mapInsert_self {β : Type} (k : String) (v : β)
    (m : List (String × β)) : (mapInsert k v m).lookup k = some v := by
  simp [mapInsert, List.lookup]

theorem lookup_mapErase_self {β : Type} (k : String)
    (m : List (String × β)) : (mapErase k m).lookup k = none := by
  induction m with
  | nil => rfl
  | cons p r ih =>
    obtain ⟨k', v⟩ := p
    by_cases h : k' = k
    · simpa [mapErase, List.filter_cons, h] using ih
    · have hb : (k == k') = false := beq_eq_false_iff_ne.mpr (Ne.symm h)
      simpa [mapErase, List.filter_cons, h, List.lookup, hb] using ih

/-- C9: when `process_job` returns, the job is gone from the active map
and sits in exactly one of the completed map (status `completed`,
`chunks_created ≥ 1`, `completed_at` and `processing_time` set) or the
failed map (status `failed`, `error_message` set); it is never in both
and never lost. -/
theorem process_job_settles_in_exactly_one_map
    (now0 now1 : Nat) (parse : Except String String)
    (chunker : String → String → List Chunk) (upsert : Except String Unit)
    (s : IndexerState) (job : Job)
    (hC : s.completed_jobs.lookup job.job_id = none)
    (hF : s.failed_jobs.lookup job.job_id = none) :
    (process_job now0 now1 parse chunker upsert s job).1.active_jobs.lookup
        job.job_id = none ∧
    (((process_job now0 now1 parse chunker upsert s job).2.status = "completed" ∧
      (∃ j, (process_job now0 now1 parse chunker upsert s job).1.completed_jobs.lookup
          job.job_id = some j ∧
        (process_job now0 now1 parse chunker upsert s job).1.failed_jobs.lookup
          job.job_id = none ∧
        j.status = "completed" ∧ 1 ≤ j.chunks_created ∧
        j.completed_at = some now1 ∧ j.processing_time = some (now1 - now0))) ∨
    ((process_job now0 now1 parse chunker upsert s job).2.status = "failed" ∧
      (∃ j, (process_job now0 now1 parse chunker upsert s job).1.failed_jobs.lookup
          job.job_id = some j ∧
        (process_job now0 now1 parse chunker upsert s job).1.completed_jobs.lookup
          job.job_id = none ∧
        j.status = "failed" ∧ j.error_message ≠ none))) := by
  unfold process_job
  rcases parse with e | text
  · exact ⟨lookup_mapErase_self _ _,
      Or.inr ⟨rfl, _, lookup_mapInsert_self _ _ _, hC, rfl, by simp⟩⟩
  · dsimp only
    split
    · exact ⟨lookup_mapErase_self _ _,
        Or.inr ⟨rfl, _, lookup_mapInsert_self _ _ _, hC, rfl, by simp⟩⟩
    · split
      · exact ⟨lookup_mapErase_self _ _,
          Or.inr ⟨rfl, _, lookup_mapInsert_self _ _ _, hC, rfl, by simp⟩⟩
      · rcases upsert with e | u
        · exact ⟨lookup_mapErase_self _ _,
            Or.inr ⟨rfl, _, lookup_mapInsert_self _ _ _, hC, rfl, by simp⟩⟩
        · refine ⟨lookup_mapErase_self _ _,
            Or.inl ⟨rfl, _, lookup_mapInsert_self _ _ _, hF, rfl, ?_, rfl, rfl⟩⟩
          rename_i hne
          have : (chunker text job.document_id) ≠ [] := by
            intro h0
            rw [h0] at hne
            exact hne rfl
          exact List.length_pos.mpr this

/-- A single chunk used by concrete indexing scenarios. -/
def oneChunk : Chunk :=
  { content := "coffee 4.50"
    meta :=
      { chunk_id := "doc1_chunk_0_h8", document_id := "doc1",
        chunk_index := 0, chunk_type := "fixed_size", start_char := 0,
        end_char := 11, parent_chunk_id := none } }

/-- A fresh pending job carrying a document hash in its metadata. -/
def pendingJob1 : Job :=
  { job_id := "job1", file_path := "/tmp/f1", business_id := "t1",
    document_id := "doc1", document_hash := some "h256", priority := 1,
    status := "pending", created_at := 0, started_at := none,
    completed_at := none, error_message := none, chunks_created := 0,
    processing_time := none }

/-- Witness for C9: a fresh job processed successfully on an empty
indexer. -/
theorem process_job_settles_in_exactly_one_map_witness :
    (initialIndexerState.completed_jobs.lookup pendingJob1.job_id = none ∧
      initialIndexerState.failed_jobs.lookup pendingJob1.job_id = none) ∧
    ((process_job 0 5 (.ok "receipt text") (fun _ _ => [oneChunk]) (.ok ())
        initialIndexerState pendingJob1).1.active_jobs.lookup
        pendingJob1.job_id = none ∧
    (((process_job 0 5 (.ok "receipt text") (fun _ _ => [oneChunk]) (.ok ())
        initialIndexerState pendingJob1).2.status = "completed" ∧
      (∃ j, (process_job 0 5 (.ok "receipt text") (fun _ _ => [oneChunk]) (.ok ())
          initialIndexerState pendingJob1).1.completed_jobs.lookup
          pendingJob1.job_id = some j ∧
        (process_job 0 5 (.ok "receipt text") (fun _ _ => [oneChunk]) (.ok ())
          initialIndexerState pendingJob1).1.failed_jobs.lookup
          pendingJob1.job_id = none ∧
        j.status = "completed" ∧ 1 ≤ j.chunks_created ∧
        j.completed_at = some 5 ∧ j.processing_time = some (5 - 0))) ∨
    ((process_job 0 5 (.ok "receipt text") (fun _ _ => [oneChunk]) (.ok ())
        initialIndexerState pendingJob1).2.status = "failed" ∧
      (∃ j, (process_job 0 5 (.ok "receipt text") (fun _ _ => [oneChunk]) (.ok ())
          initialIndexerState pendingJob1).1.failed_jobs.lookup
          pendingJob1.job_id = some j ∧
        (process_job 0 5 (.ok "receipt text") (fun _ _ => [oneChunk]) (.ok ())
          initialIndexerState pendingJob1).1.completed_jobs.lookup
          pendingJob1.job_id = none ∧
        j.status = "failed" ∧ j.error_message ≠ none)))) :=
  ⟨⟨rfl, rfl⟩,
    process_job_settles_in_exactly_one_map 0 5 (.ok "receipt text")
      (fun _ _ => [oneChunk]) (.ok ()) initialIndexerState pendingJob1 rfl rfl⟩

/-! ### The document cache is never consulted nor written -/

/-- The second submission of the same bytes: same `document_hash`, same
caller-supplied `document_id`, a fresh `job_id`. -/
def pendingJob2 : Job := { pendingJob1 with job_id := "job2" }

/-- The system after the first submission is indexed through the
`handle_index_document` flow, on an indexer wired up by
`ExpenseDocumentSearchEngine.__init__`. -/
def sAfterFirst : IndexerState :=
  handleIndexFlow true true 0 5 (.ok "receipt text") (fun _ _ => [oneChunk])
    (.ok ()) pendingJob1 (engineInitWire initialIndexerState)

/-- The system after the same bytes are submitted a second time, 10
seconds later (far inside the 3600-second cache TTL). -/
def sAfterSecond : IndexerState :=
  handleIndexFlow true true 10 15 (.ok "receipt text") (fun _ _ => [oneChunk])
    (.ok ()) pendingJob2 sAfterFirst

/-- C1, evaluated at the failing input: the first submission completes a
job that carries `document_hash`, yet no cache entry is written — the
engine's `__init__` sets `_search_engine_ref` while `process_job` guards
the cache write with `hasattr(self, '_rag_service_ref')`, so the hook
never fires; no submission path calls `check_document_cache`, so the
second submission of the same bytes within the TTL is enqueued and fully
re-ingested (the vector store grows from 1 row to 2) instead of being
synthesised from the cache. -/
theorem duplicate_submission_reingested_cache_never_written :
    sAfterFirst.searchEngineRefSet = true ∧
    sAfterFirst.ragServiceRefSet = false ∧
    (sAfterFirst.completed_jobs.lookup "job1").isSome = true ∧
    sAfterFirst.document_cache = [] ∧
    sAfterFirst.store_table.length = 1 ∧
    (check_document_cache 10 3600 "h256" "t1" sAfterFirst.document_cache).1 = none ∧
    (sAfterSecond.completed_jobs.lookup "job2").isSome = true ∧
    sAfterSecond.document_cache = [] ∧
    sAfterSecond.store_table.length = 2 := by
  decide

/-! ### Health endpoint -/

/-- Counterexample to C8: with an unhealthy vector store the engine
reports `warning`, the indexer reports `unhealthy`, the handler
aggregates to `unhealthy` — and still answers HTTP 200, not 503. -/
theorem health_check_unhealthy_still_200 :
    handle_health_check (engineHealthStatus "unhealthy" "healthy" true)
        (indexerHealthStatus "healthy" "unhealthy" "healthy") =
      { status := "unhealthy", engine_status := "warning",
        indexer_status := "unhealthy", http_code := 200 } ∧
    (handle_health_check (engineHealthStatus "unhealthy" "healthy" true)
        (indexerHealthStatus "healthy" "unhealthy" "healthy")).http_code ≠ 503 := by
  decide

/-- C8 (amended): `handle_health_check` answers HTTP 200 with the
status/components body in every case, unhealthy sub-components included
(only an escaping exception yields a different code, 500); the `status`
field — not the HTTP code — is `healthy` exactly when both components
report healthy. -/
theorem handle_health_check_always_200 (engineH indexerH : String) :
    (handle_health_check engineH indexerH).http_code = 200 ∧
    (handle_health_check engineH indexerH).engine_status = engineH ∧
    (handle_health_check engineH indexerH).indexer_status = indexerH ∧
    ((handle_health_check engineH indexerH).status = "healthy" ↔
      engineH = "healthy" ∧ indexerH = "healthy") := by
  refine ⟨rfl, rfl, rfl, ?_⟩
  unfold handle_health_check
  by_cases h1 : engineH = "healthy" <;> by_cases h2 : indexerH = "healthy" <;>
    simp [h1, h2]

/-! ### Empty-query short circuit -/

/-- C10: a query that is empty or whitespace-only makes the search engine
return the empty response — no results, `total_results = 0`, an error
note in `search_metadata` — without consulting any of its components
(the response is the same for every vector store), and the vector
store's own `search` returns `[]` for such a query as well. -/
theorem empty_query_short_circuits
    (store : String → String → Nat → List MetaFilter → Rat → List SearchHit)
    (enhance : String → String)
    (extractFilters : String → String × List MetaFilter)
    (post : List SearchHit → String → Nat → List EngineResult)
    (dedup : List EngineResult → List EngineResult) (procTime : Rat)
    (query bid : String) (lim : Nat) (filters : List MetaFilter)
    (enhanceQuery : Bool) (table : List StoreRow) (dist : StoreRow → Rat)
    (storeLim : Nat) (storeFilters : List MetaFilter) (threshold : Rat)
    (hq : pyStrip query = "") :
    engineSearch store enhance extractFilters post dedup procTime query bid
        lim filters enhanceQuery = emptyQueryResponse query ∧
    (emptyQueryResponse query).results = [] ∧
    (emptyQueryResponse query).total_results = 0 ∧
    (emptyQueryResponse query).search_metadata.error = some "Empty query" ∧
    storeSearch table dist query bid storeLim storeFilters threshold = [] := by
  refine ⟨?_, rfl, rfl, rfl, ?_⟩
  · unfold engineSearch
    rw [if_pos hq]
  · unfold storeSearch
    rw [if_pos hq]

/-- Witness for C10 at the whitespace-only query `"   "`. -/
theorem empty_query_short_circuits_witness :
    pyStrip "   " = "" ∧
    engineSearch (fun _ _ _ _ _ => []) id (fun q => (q, [])) (fun _ _ _ => [])
        id 0 "   " "t1" 10 [] true = emptyQueryResponse "   " ∧
    storeSearch [] (fun _ => 0) "   " "t1" 10 [] (3/10) = [] :=
  ⟨by decide,
    (empty_query_short_circuits (fun _ _ _ _ _ => []) id (fun q => (q, []))
      (fun _ _ _ => []) id 0 "   " "t1" 10 [] true [] (fun _ => 0) 10 []
      (3/10) (by decide)).1,
    (empty_query_short_circuits (fun _ _ _ _ _ => []) id (fun q => (q, []))
      (fun _ _ _ => []) id 0 "   " "t1" 10 [] true [] (fun _ => 0) 10 []
      (3/10) (by decide)).2.2.2.2⟩

end ExpenseRag
